import Mathlib

/-!
Verification of `getServerlessFunctionLatencyChart`
(x-pack/solutions/observability/plugins/apm/server/routes/metrics/serverless/
get_serverless_function_latency_chart.ts).

The file embeds the merger and the transaction-latency adapter as pure Lean
functions.  JavaScript numbers are modelled as exact integers together with
the non-finite tags `nan`, `posInf`, `negInf` (the only arithmetic the code
performs is multiplication by 1000, which is exact); a data-point value
(`y?: number | null`) is a JavaScript number, `null`, or `undefined`.
The two concurrent fetches are modelled as `Except` results joined by a
`Promise.all`-style combinator.
-/

/-- A JavaScript `number`: an exact finite value, `NaN`, or an infinity. -/
inductive JsNumber where
  | fin (n : Int)
  | nan
  | posInf
  | negInf
deriving DecidableEq

/-- JavaScript evaluation of `n * 1000` for a number `n` (1000 is finite and
positive, so infinities keep their sign and `NaN` stays `NaN`). -/
def JsNumber.mul1000 : JsNumber → JsNumber
  | .fin n => .fin (n * 1000)
  | .nan => .nan
  | .posInf => .posInf
  | .negInf => .negInf

/-- The value slot of a data point (`y?: number | null`): a number, `null`,
or `undefined` (field absent). -/
inductive JsVal where
  | num (n : JsNumber)
  | null
  | undef
deriving DecidableEq

/-- Modelled from the spec: the finite-number predicate `isFiniteNumber`
(from `common/utils/is_finite_number`, not part of the given sources) is "a
small pure predicate used at every point where a metric value crosses a
unit-conversion boundary"; it holds exactly on finite numbers, so `null`,
`undefined`, `NaN` and the infinities "must pass through untouched rather
than becoming `NaN`". -/
def isFiniteNumber : JsVal → Bool
  | .num (.fin _) => true
  | _ => false

/-- JavaScript evaluation of `y * 1000` on a value of type
`number | null | undefined`, including the coercions the source's
finiteness guard exists to avoid: `null * 1000 = 0` and
`undefined * 1000 = NaN`. -/
def jsTimes1000 : JsVal → JsVal
  | .num n => .num n.mul1000
  | .null => .num (.fin 0)
  | .undef => .num .nan

/-- A chart data point `{ x, y }`. -/
structure Coordinate where
  x : JsNumber
  y : JsVal
deriving DecidableEq

/-- One chart series.  `data` is `Option`al because the billed-duration
series' `data` may be `undefined` (the source reads it as `data?.map` and
`data || []`). -/
structure Series where
  title : String
  key : String
  type : String
  overallValue : JsNumber
  data : Option (List Coordinate)
deriving DecidableEq

/-- The `GenericMetricsChart` envelope returned by the billed-duration fetch
and by the merger: descriptor fields plus a list of series. -/
structure GenericMetricsChart where
  title : String
  key : String
  type : String
  yUnit : String
  description : String
  series : List Series
deriving DecidableEq

/-- The result of the external latency-timeseries collaborator
(`getLatencyTimeseries`): an overall average that may be absent
(`null`/`undefined`, modelled as `none`) and a bucketed series. -/
structure LatencyTimeseriesResult where
  overallAvgDuration : Option JsNumber
  latencyTimeseries : List Coordinate
deriving DecidableEq

/-- The transaction-latency adapter `getServerlessLatencySeries`, applied to
the awaited collaborator result: a one-element series list with fixed
title/key/type, `overallValue := transactionLatency.overallAvgDuration ?? 0`,
and `data := transactionLatency.latencyTimeseries`. -/
def getServerlessLatencySeries (transactionLatency : LatencyTimeseriesResult) :
    List Series :=
  [{ title := "Transaction Duration"
   , key := "transaction_duration"
   , type := "linemark"
   , overallValue := transactionLatency.overallAvgDuration.getD (.fin 0)
   , data := some transactionLatency.latencyTimeseries }]

/-- Lodash `isEmpty` applied to a possibly-`undefined` array: `undefined`
and `[]` are empty, any array with an element is not. -/
def lodashIsEmpty : Option (List Coordinate) → Bool
  | none => true
  | some l => l.isEmpty

/-- The per-point transform of the merger:
`({ x, y }) => ({ x, y: isFiniteNumber(y) ? y * 1000 : y })`. -/
def convertBilledPoint (p : Coordinate) : Coordinate :=
  { x := p.x, y := if isFiniteNumber p.y then jsTimes1000 p.y else p.y }

/-- The billed-duration part of the merged series list: if the billed fetch
produced a first series (`const [billedDurationSeries] = ...; if
(billedDurationSeries)`), push a copy with `overallValue` multiplied by 1000
and `data` mapped point-wise (`data?.map(...)`, then `data || []`);
otherwise nothing. -/
def convertBilledSeries (billedDurationMetrics : GenericMetricsChart) :
    List Series :=
  match billedDurationMetrics.series.head? with
  | some billedDurationSeries =>
      [{ billedDurationSeries with
          overallValue := billedDurationSeries.overallValue.mul1000
        , data :=
            some (((billedDurationSeries.data).map
              (List.map convertBilledPoint)).getD []) }]
  | none => []

/-- The merger continuation of `getServerlessFunctionLatencyChart`, after
both fetches resolved.  The access `serverlessDurationSeries[0].data` is
unguarded: on an empty list it throws a `TypeError`, modelled as `none`.
Otherwise the result is the billed envelope with `series` replaced by the
billed part followed by the transaction series list when the first
transaction series' `data` is non-empty. -/
def mergeChart (billedDurationMetrics : GenericMetricsChart)
    (serverlessDurationSeries : List Series) : Option GenericMetricsChart :=
  match serverlessDurationSeries.head? with
  | none => none
  | some s0 =>
      some { billedDurationMetrics with
              series :=
                if lodashIsEmpty s0.data then
                  convertBilledSeries billedDurationMetrics
                else
                  convertBilledSeries billedDurationMetrics ++
                    serverlessDurationSeries }

/-- `getServerlessFunctionLatencyChart` as a function of the two awaited
fetch results: the transaction side goes through the adapter, then the
merger runs. -/
def getServerlessFunctionLatencyChart
    (billedDurationMetrics : GenericMetricsChart)
    (transactionLatency : LatencyTimeseriesResult) :
    Option GenericMetricsChart :=
  mergeChart billedDurationMetrics
    (getServerlessLatencySeries transactionLatency)

/-- `Promise.all` on two settled outcomes: `ok` of the pair when both
fulfil, otherwise the error of a rejected input. -/
def promiseAll2 {ε α β : Type} (a : Except ε α) (b : Except ε β) :
    Except ε (α × β) :=
  match a, b with
  | .ok x, .ok y => .ok (x, y)
  | .error e, _ => .error e
  | .ok _, .error e => .error e

/-- The whole computation including failure propagation: join the two fetch
outcomes with `promiseAll2`, then run the merger on the pair. -/
def getServerlessFunctionLatencyChartRun {ε : Type}
    (billed : Except ε GenericMetricsChart)
    (latency : Except ε LatencyTimeseriesResult) :
    Except ε (Option GenericMetricsChart) :=
  match promiseAll2 billed latency with
  | .ok (bm, tl) => .ok (getServerlessFunctionLatencyChart bm tl)
  | .error e => .error e

/-- Sample billed-duration data used in scenario checks: one finite point and
one `null` point. -/
def sampleBilledData : List Coordinate :=
  [⟨.fin 1000, .num (.fin 2)⟩, ⟨.fin 2000, .null⟩]

/-- Sample billed-duration series used in scenario checks. -/
def sampleBilledSeries : Series :=
  { title := "Billed Duration"
  , key := "billedDurationAvg"
  , type := "linemark"
  , overallValue := .fin 2
  , data := some sampleBilledData }

/-- Sample billed-duration fetch result used in scenario checks. -/
def sampleBilled : GenericMetricsChart :=
  { title := "Lambda Duration"
  , key := "avg_duration"
  , type := "linemark"
  , yUnit := "time"
  , description := "Transaction duration is the time spent processing"
  , series := [sampleBilledSeries] }

/-- Sample collaborator result used in scenario checks. -/
def sampleLatency : LatencyTimeseriesResult :=
  { overallAvgDuration := some (.fin 500)
  , latencyTimeseries := [⟨.fin 1000, .num (.fin 500)⟩] }

/-- The merged chart on the sample inputs, spelled out. -/
def sampleOut : GenericMetricsChart :=
  { sampleBilled with
      series :=
        [{ title := "Billed Duration"
         , key := "billedDurationAvg"
         , type := "linemark"
         , overallValue := .fin 2000
         , data := some [⟨.fin 1000, .num (.fin 2000)⟩, ⟨.fin 2000, .null⟩] },
         { title := "Transaction Duration"
         , key := "transaction_duration"
         , type := "linemark"
         , overallValue := .fin 500
         , data := some [⟨.fin 1000, .num (.fin 500)⟩] }] }

/-- A billed-duration fetch result with an empty series list (scenario C). -/
def sampleBilledNoSeries : GenericMetricsChart :=
  { sampleBilled with series := [] }

/-- The merged chart when the billed fetch had no series: only the
transaction-duration series remains. -/
def sampleOutNoBilled : GenericMetricsChart :=
  { sampleBilledNoSeries with series := getServerlessLatencySeries sampleLatency }

/-- A billed-duration series whose `data` field is absent (`undefined`). -/
def sampleBilledSeriesNoData : Series :=
  { sampleBilledSeries with data := none }

/-- A billed-duration fetch result whose series has no `data` field. -/
def sampleBilledNoData : GenericMetricsChart :=
  { sampleBilled with series := [sampleBilledSeriesNoData] }

/-- The merged chart on `sampleBilledNoData` and `sampleLatency`. -/
def sampleOutNoData : GenericMetricsChart :=
  { sampleBilledNoData with
      series := convertBilledSeries sampleBilledNoData ++
        getServerlessLatencySeries sampleLatency }

/-- Scenario A of the spec on the sample inputs. -/
theorem sample_scenario :
    getServerlessFunctionLatencyChart sampleBilled sampleLatency =
      some sampleOut := by
  decide

/-- Characterization of a successful merge: the transaction list has a first
series, and the output is the billed envelope with the merged series list. -/
theorem mergeChart_some_iff (bm : GenericMetricsChart) (sd : List Series)
    (out : GenericMetricsChart) :
    mergeChart bm sd = some out ↔
      ∃ s0, sd.head? = some s0 ∧
        out = { bm with series :=
          if lodashIsEmpty s0.data then convertBilledSeries bm
          else convertBilledSeries bm ++ sd } := by
  unfold mergeChart
  cases hsd : sd.head? with
  | none => simp
  | some s0 =>
      simp only [Option.some.injEq, exists_eq_left']
      exact eq_comm

/-- When the billed fetch produced a first series, `convertBilledSeries` is
the singleton holding its converted copy. -/
theorem convertBilledSeries_of_head (bm : GenericMetricsChart) (bs : Series)
    (h : bm.series.head? = some bs) :
    convertBilledSeries bm =
      [{ bs with
          overallValue := bs.overallValue.mul1000
        , data := some (((bs.data).map (List.map convertBilledPoint)).getD []) }] := by
  unfold convertBilledSeries
  rw [h]

/-- When the billed fetch produced no series, `convertBilledSeries` is empty. -/
theorem convertBilledSeries_of_nil (bm : GenericMetricsChart)
    (h : bm.series = []) : convertBilledSeries bm = [] := by
  unfold convertBilledSeries
  rw [h]
  rfl

/-- Claim C1: for every billed-duration series returned by the billed-duration
fetch, the merger maps each data point `(x, y)` to `(x, y * 1000)` when `y` is
a finite number and leaves `y` unchanged (null/undefined/non-finite, never
coerced) when it is not; the `x` timestamp is never altered. -/
theorem merger_unit_conversion
    (bm : GenericMetricsChart) (sd : List Series) (bs : Series)
    (l : List Coordinate) (out : GenericMetricsChart)
    (hbs : bm.series.head? = some bs) (hdata : bs.data = some l)
    (hout : mergeChart bm sd = some out) :
    ∃ obs, out.series.head? = some obs ∧
      obs.data = some (l.map convertBilledPoint) ∧
      ∀ p ∈ l,
        (convertBilledPoint p).x = p.x ∧
        (∀ n : Int, p.y = .num (.fin n) →
          (convertBilledPoint p).y = .num (.fin (n * 1000))) ∧
        (isFiniteNumber p.y = false → (convertBilledPoint p).y = p.y) := by
  obtain ⟨s0, hs0, rfl⟩ := (mergeChart_some_iff bm sd out).mp hout
  have hcb := convertBilledSeries_of_head bm bs hbs
  rw [hdata] at hcb
  simp only [Option.map_some', Option.getD_some] at hcb
  refine ⟨{ bs with
      overallValue := bs.overallValue.mul1000,
      data := some (l.map convertBilledPoint) }, ?_, rfl, ?_⟩
  · show (if lodashIsEmpty s0.data then convertBilledSeries bm
          else convertBilledSeries bm ++ sd).head? = _
    split
    · rw [hcb]
      rfl
    · rw [hcb]
      rfl
  · intro p hp
    refine ⟨rfl, ?_, ?_⟩
    · intro n hn
      simp [convertBilledPoint, hn, isFiniteNumber, jsTimes1000, JsNumber.mul1000]
    · intro hfin
      simp [convertBilledPoint, hfin]

/-- Claim C2: whenever the billed-duration fetch produced a series, the output
billed-duration series' `overallValue` equals the input series' `overallValue`
multiplied by 1000, unconditionally (no finiteness guard is applied to
`overallValue`). -/
theorem merger_overallValue_scaling
    (bm : GenericMetricsChart) (sd : List Series) (bs : Series)
    (out : GenericMetricsChart)
    (hbs : bm.series.head? = some bs) (hout : mergeChart bm sd = some out) :
    ∃ obs, out.series.head? = some obs ∧
      obs.overallValue = bs.overallValue.mul1000 ∧
      ∀ n : Int, bs.overallValue = .fin n → obs.overallValue = .fin (n * 1000) := by
  obtain ⟨s0, hs0, rfl⟩ := (mergeChart_some_iff bm sd out).mp hout
  have hcb := convertBilledSeries_of_head bm bs hbs
  refine ⟨{ bs with
      overallValue := bs.overallValue.mul1000,
      data := some (((bs.data).map (List.map convertBilledPoint)).getD []) },
      ?_, rfl, ?_⟩
  · show (if lodashIsEmpty s0.data then convertBilledSeries bm
          else convertBilledSeries bm ++ sd).head? = _
    split
    · rw [hcb]
      rfl
    · rw [hcb]
      rfl
  · intro n hn
    rw [hn]
    rfl

/-- Claim C10: when the billed-duration fetch produced a series whose `data`
field is absent (`undefined`), the output billed-duration series still appears
and its `data` field is the empty list; in all cases the output
billed-duration series' `data` is a (possibly empty) list, never `undefined`. -/
theorem merger_billed_data_always_list
    (bm : GenericMetricsChart) (sd : List Series) (bs : Series)
    (out : GenericMetricsChart)
    (hbs : bm.series.head? = some bs) (hout : mergeChart bm sd = some out) :
    ∃ obs l, out.series.head? = some obs ∧ obs.data = some l ∧
      (bs.data = none → l = []) := by
  obtain ⟨s0, hs0, rfl⟩ := (mergeChart_some_iff bm sd out).mp hout
  have hcb := convertBilledSeries_of_head bm bs hbs
  refine ⟨{ bs with
      overallValue := bs.overallValue.mul1000,
      data := some (((bs.data).map (List.map convertBilledPoint)).getD []) },
      ((bs.data).map (List.map convertBilledPoint)).getD [], ?_, rfl, ?_⟩
  · show (if lodashIsEmpty s0.data then convertBilledSeries bm
          else convertBilledSeries bm ++ sd).head? = _
    split
    · rw [hcb]
      rfl
    · rw [hcb]
      rfl
  · intro hnone
    rw [hnone]
    rfl

/-- Claim C3: the transaction-duration series is omitted from the output
series list exactly when its data sequence has length 0; when its data has
length at least 1 (even if every point's value is null), the series is
appended to the output unmodified, after the billed-duration part. -/
theorem merger_transaction_inclusion
    (bm : GenericMetricsChart) (tl : LatencyTimeseriesResult)
    (out : GenericMetricsChart)
    (hout : getServerlessFunctionLatencyChart bm tl = some out) :
    (tl.latencyTimeseries = [] → out.series = convertBilledSeries bm) ∧
    (tl.latencyTimeseries ≠ [] →
      out.series = convertBilledSeries bm ++ getServerlessLatencySeries tl) := by
  obtain ⟨avg, lts⟩ := tl
  obtain ⟨s0, hs0, rfl⟩ := (mergeChart_some_iff bm _ out).mp hout
  obtain rfl := Option.some_inj.mp hs0
  cases lts with
  | nil => exact ⟨fun _ => rfl, fun h => absurd rfl h⟩
  | cons p ps => exact ⟨fun h => absurd h (List.cons_ne_nil p ps), fun _ => rfl⟩

/-- Claim C4: for every pair of fetch results, the output series list contains
at most two entries, and whenever both series are present (length two) the
billed-duration series precedes the transaction-duration series. -/
theorem merger_series_bound_and_order
    (bm : GenericMetricsChart) (tl : LatencyTimeseriesResult)
    (out : GenericMetricsChart)
    (hout : getServerlessFunctionLatencyChart bm tl = some out) :
    out.series.length ≤ 2 ∧
    (out.series.length = 2 →
      ∃ bs, convertBilledSeries bm = [bs] ∧
        out.series = bs :: getServerlessLatencySeries tl) := by
  obtain ⟨avg, lts⟩ := tl
  obtain ⟨s0, hs0, rfl⟩ := (mergeChart_some_iff bm _ out).mp hout
  obtain rfl := Option.some_inj.mp hs0
  cases lts with
  | nil =>
      cases hbm : bm.series with
      | nil =>
          have hc := convertBilledSeries_of_nil bm hbm
          constructor
          · show (convertBilledSeries bm).length ≤ 2
            rw [hc]
            simp
          · intro h2
            have h2' : (convertBilledSeries bm).length = 2 := h2
            rw [hc] at h2'
            simp at h2'
      | cons b rest =>
          have hc := convertBilledSeries_of_head bm b (by rw [hbm]; rfl)
          constructor
          · show (convertBilledSeries bm).length ≤ 2
            rw [hc]
            simp
          · intro h2
            have h2' : (convertBilledSeries bm).length = 2 := h2
            rw [hc] at h2'
            simp at h2'
  | cons p ps =>
      cases hbm : bm.series with
      | nil =>
          have hc := convertBilledSeries_of_nil bm hbm
          constructor
          · show (convertBilledSeries bm ++
              getServerlessLatencySeries ⟨avg, p :: ps⟩).length ≤ 2
            rw [hc]
            simp [getServerlessLatencySeries]
          · intro h2
            have h2' : (convertBilledSeries bm ++
              getServerlessLatencySeries ⟨avg, p :: ps⟩).length = 2 := h2
            rw [hc] at h2'
            simp [getServerlessLatencySeries] at h2'
      | cons b rest =>
          have hc := convertBilledSeries_of_head bm b (by rw [hbm]; rfl)
          refine ⟨?_, fun _ => ⟨_, hc, ?_⟩⟩
          · show (convertBilledSeries bm ++
              getServerlessLatencySeries ⟨avg, p :: ps⟩).length ≤ 2
            rw [hc]
            simp [getServerlessLatencySeries]
          · show convertBilledSeries bm ++
              getServerlessLatencySeries ⟨avg, p :: ps⟩ = _
            rw [hc]
            rfl

/-- Claim C5: the descriptor fields of the returned chart (title, key, type,
y-axis unit, description) equal the corresponding fields of the
billed-duration fetch's result exactly; only the series field is replaced. -/
theorem merger_envelope_fidelity
    (bm : GenericMetricsChart) (tl : LatencyTimeseriesResult)
    (out : GenericMetricsChart)
    (hout : getServerlessFunctionLatencyChart bm tl = some out) :
    out.title = bm.title ∧ out.key = bm.key ∧ out.type = bm.type ∧
    out.yUnit = bm.yUnit ∧ out.description = bm.description ∧
    out = { bm with series := out.series } := by
  obtain ⟨s0, hs0, rfl⟩ := (mergeChart_some_iff bm _ out).mp hout
  exact ⟨rfl, rfl, rfl, rfl, rfl, rfl⟩

/-- Claim C7: when the billed-duration fetch's series list is empty, the
output series list holds only the transaction-duration series if its data is
non-empty and is empty otherwise, while the envelope fields still come from
the billed-duration fetch's result. -/
theorem merger_empty_billed_series
    (bm : GenericMetricsChart) (tl : LatencyTimeseriesResult)
    (out : GenericMetricsChart) (hempty : bm.series = [])
    (hout : getServerlessFunctionLatencyChart bm tl = some out) :
    (tl.latencyTimeseries ≠ [] → out.series = getServerlessLatencySeries tl) ∧
    (tl.latencyTimeseries = [] → out.series = []) ∧
    out.title = bm.title ∧ out.key = bm.key ∧ out.type = bm.type ∧
    out.yUnit = bm.yUnit ∧ out.description = bm.description := by
  obtain ⟨avg, lts⟩ := tl
  obtain ⟨s0, hs0, rfl⟩ := (mergeChart_some_iff bm _ out).mp hout
  obtain rfl := Option.some_inj.mp hs0
  have hc := convertBilledSeries_of_nil bm hempty
  cases lts with
  | nil =>
      refine ⟨fun h => absurd rfl h, fun _ => ?_, rfl, rfl, rfl, rfl, rfl⟩
      show convertBilledSeries bm = []
      exact hc
  | cons p ps =>
      refine ⟨fun _ => ?_, fun h => absurd h (List.cons_ne_nil p ps),
        rfl, rfl, rfl, rfl, rfl⟩
      show convertBilledSeries bm ++ getServerlessLatencySeries ⟨avg, p :: ps⟩ =
        getServerlessLatencySeries ⟨avg, p :: ps⟩
      rw [hc]
      rfl

/-- Claim C6: the transaction-latency adapter sets the produced series'
`overallValue` to the upstream overall average when present and to 0 when
absent; `overallValue` is never null or undefined in the adapter's output. -/
theorem latency_adapter_overallValue (tl : LatencyTimeseriesResult) :
    ∃ s, getServerlessLatencySeries tl = [s] ∧
      (∀ n : JsNumber, tl.overallAvgDuration = some n → s.overallValue = n) ∧
      (tl.overallAvgDuration = none → s.overallValue = .fin 0) := by
  refine ⟨_, rfl, ?_, ?_⟩
  · intro n hn
    show tl.overallAvgDuration.getD (.fin 0) = n
    rw [hn]
    rfl
  · intro hn
    show tl.overallAvgDuration.getD (.fin 0) = .fin 0
    rw [hn]
    rfl

/-- Claim C8: the transaction-latency adapter returns a list with exactly one
series for every upstream result, so the merger's unguarded access to the
first element of the transaction-duration series list never reads a missing
element (the merge never throws on an adapter output). -/
theorem latency_adapter_singleton_safe
    (bm : GenericMetricsChart) (tl : LatencyTimeseriesResult) :
    (getServerlessLatencySeries tl).length = 1 ∧
    (mergeChart bm (getServerlessLatencySeries tl)).isSome = true :=
  ⟨rfl, rfl⟩

/-- Claim C9: if either the billed-duration fetch or the transaction-latency
fetch fails, the whole computation fails with that error, and a chart is
produced exactly when both fetches succeed. -/
theorem chart_run_atomic_failure {ε : Type}
    (billed : Except ε GenericMetricsChart)
    (latency : Except ε LatencyTimeseriesResult) :
    (∀ e, billed = .error e →
      getServerlessFunctionLatencyChartRun billed latency = .error e) ∧
    (∀ bm e, billed = .ok bm → latency = .error e →
      getServerlessFunctionLatencyChartRun billed latency = .error e) ∧
    (∀ c, getServerlessFunctionLatencyChartRun billed latency = .ok c →
      ∃ bm tl, billed = .ok bm ∧ latency = .ok tl ∧
        c = getServerlessFunctionLatencyChart bm tl) := by
  refine ⟨?_, ?_, ?_⟩
  · intro e he
    subst he
    rfl
  · intro bm e hb hl
    subst hb
    subst hl
    rfl
  · intro c hc
    cases hb : billed with
    | error e =>
        rw [hb] at hc
        exact Except.noConfusion (show Except.error e = Except.ok c from hc)
    | ok bm =>
        cases hl : latency with
        | error e =>
            rw [hb, hl] at hc
            exact Except.noConfusion (show Except.error e = Except.ok c from hc)
        | ok tl =>
            rw [hb, hl] at hc
            have hc' : Except.ok (getServerlessFunctionLatencyChart bm tl) =
              Except.ok c := hc
            exact ⟨bm, tl, rfl, rfl, (Except.ok.inj hc').symm⟩

/-- Witness for C1 at the sample inputs: the finite point is scaled to
microseconds and the `null` point passes through unchanged. -/
theorem merger_unit_conversion_witness :
    sampleBilled.series.head? = some sampleBilledSeries ∧
    sampleBilledSeries.data = some sampleBilledData ∧
    mergeChart sampleBilled (getServerlessLatencySeries sampleLatency) =
      some sampleOut ∧
    (∃ obs, sampleOut.series.head? = some obs ∧
      obs.data = some (sampleBilledData.map convertBilledPoint)) ∧
    (convertBilledPoint ⟨.fin 1000, .num (.fin 2)⟩).y = .num (.fin 2000) ∧
    (convertBilledPoint ⟨.fin 2000, .null⟩).y = .null := by
  obtain ⟨obs, hobs, hdata, hpts⟩ :=
    merger_unit_conversion sampleBilled (getServerlessLatencySeries sampleLatency)
      sampleBilledSeries sampleBilledData sampleOut rfl rfl (by decide)
  refine ⟨rfl, rfl, by decide, ⟨obs, hobs, hdata⟩, ?_, ?_⟩
  · have h := (hpts ⟨.fin 1000, .num (.fin 2)⟩ (by decide)).2.1 2 rfl
    simpa using h
  · exact (hpts ⟨.fin 2000, .null⟩ (by decide)).2.2 rfl

/-- Witness for C2 at the sample inputs: the overall value 2 ms becomes
2000 µs. -/
theorem merger_overallValue_scaling_witness :
    sampleBilled.series.head? = some sampleBilledSeries ∧
    mergeChart sampleBilled (getServerlessLatencySeries sampleLatency) =
      some sampleOut ∧
    (∃ obs, sampleOut.series.head? = some obs ∧
      obs.overallValue = sampleBilledSeries.overallValue.mul1000 ∧
      obs.overallValue = .fin 2000) := by
  obtain ⟨obs, hobs, hov, himp⟩ :=
    merger_overallValue_scaling sampleBilled
      (getServerlessLatencySeries sampleLatency) sampleBilledSeries sampleOut
      rfl (by decide)
  refine ⟨rfl, by decide, obs, hobs, hov, ?_⟩
  have h := himp 2 rfl
  simpa using h

/-- Witness for C3 at the sample inputs: the non-empty transaction series is
appended after the billed part. -/
theorem merger_transaction_inclusion_witness :
    getServerlessFunctionLatencyChart sampleBilled sampleLatency =
      some sampleOut ∧
    sampleOut.series =
      convertBilledSeries sampleBilled ++ getServerlessLatencySeries sampleLatency := by
  have h := merger_transaction_inclusion sampleBilled sampleLatency sampleOut (by decide)
  exact ⟨by decide, h.2 (by decide)⟩

/-- Witness for C4 at the sample inputs: two series, billed first. -/
theorem merger_series_bound_and_order_witness :
    getServerlessFunctionLatencyChart sampleBilled sampleLatency =
      some sampleOut ∧
    sampleOut.series.length ≤ 2 ∧
    (∃ bs, convertBilledSeries sampleBilled = [bs] ∧
      sampleOut.series = bs :: getServerlessLatencySeries sampleLatency) := by
  have h := merger_series_bound_and_order sampleBilled sampleLatency sampleOut (by decide)
  exact ⟨by decide, h.1, h.2 (by decide)⟩

/-- Witness for C5 at the sample inputs. -/
theorem merger_envelope_fidelity_witness :
    getServerlessFunctionLatencyChart sampleBilled sampleLatency =
      some sampleOut ∧
    (sampleOut.title = sampleBilled.title ∧ sampleOut.key = sampleBilled.key ∧
     sampleOut.type = sampleBilled.type ∧ sampleOut.yUnit = sampleBilled.yUnit ∧
     sampleOut.description = sampleBilled.description ∧
     sampleOut = { sampleBilled with series := sampleOut.series }) :=
  ⟨by decide, merger_envelope_fidelity sampleBilled sampleLatency sampleOut (by decide)⟩

/-- Witness for C6 at the sample inputs: the upstream average 500 is taken
over as the adapter series' overall value. -/
theorem latency_adapter_overallValue_witness :
    sampleLatency.overallAvgDuration = some (.fin 500) ∧
    (∃ s, getServerlessLatencySeries sampleLatency = [s] ∧
      s.overallValue = .fin 500) := by
  obtain ⟨s, hs, hsome, _⟩ := latency_adapter_overallValue sampleLatency
  exact ⟨rfl, s, hs, hsome (.fin 500) rfl⟩

/-- Witness for C7 at the sample inputs: an empty billed series list leaves
only the transaction series, under the billed envelope. -/
theorem merger_empty_billed_series_witness :
    sampleBilledNoSeries.series = [] ∧
    getServerlessFunctionLatencyChart sampleBilledNoSeries sampleLatency =
      some sampleOutNoBilled ∧
    sampleOutNoBilled.series = getServerlessLatencySeries sampleLatency ∧
    sampleOutNoBilled.title = sampleBilledNoSeries.title := by
  have h := merger_empty_billed_series sampleBilledNoSeries sampleLatency
    sampleOutNoBilled rfl (by decide)
  exact ⟨rfl, by decide, h.1 (by decide), h.2.2.1⟩

/-- Witness for C9: a rejected billed fetch makes the whole computation fail
with that error. -/
theorem chart_run_atomic_failure_witness :
    getServerlessFunctionLatencyChartRun (ε := String) (.error "boom")
      (.ok sampleLatency) = .error "boom" :=
  (chart_run_atomic_failure (.error "boom") (.ok sampleLatency)).1 "boom" rfl

/-- Witness for C10 at the sample inputs: a billed series with absent `data`
yields an output series whose `data` is the empty list. -/
theorem merger_billed_data_always_list_witness :
    sampleBilledNoData.series.head? = some sampleBilledSeriesNoData ∧
    sampleBilledSeriesNoData.data = none ∧
    mergeChart sampleBilledNoData (getServerlessLatencySeries sampleLatency) =
      some sampleOutNoData ∧
    (∃ obs l, sampleOutNoData.series.head? = some obs ∧ obs.data = some l ∧
      l = []) := by
  obtain ⟨obs, l, hobs, hdata, himp⟩ :=
    merger_billed_data_always_list sampleBilledNoData
      (getServerlessLatencySeries sampleLatency) sampleBilledSeriesNoData
      sampleOutNoData rfl (by decide)
  exact ⟨rfl, rfl, by decide, obs, l, hobs, hdata, himp rfl⟩
